import Mathlib

/-!
Shallow embedding of the tuto-SV repository (src/studentsurvey.py and
src/tuto_sv.py): a Streamlit page that loads a survey CSV into a pandas
DataFrame and renders a fixed sequence of Plotly charts.

Modelling conventions:
* A pandas cell is `Cell`: `num q` is a numeric entry (numeric-looking CSV
  text is parsed to a number by pandas, so it is represented as `num`),
  `str s` is a non-numeric text entry, and `missing` is NaN.
* A DataFrame is a column-name list plus a list of rows (lists of cells,
  positionally aligned with the column names).  Python in-place mutation of
  a DataFrame argument is modelled by the function returning the updated
  table alongside its chart payload.
* Rationals stand in for floats; the aggregations involved (sums, counts,
  means of small columns) are exact in the source data range.
* `st.cache_data` memoization is modelled by an explicit state holding a
  never-evicted cache keyed by URL, plus a fetch counter; the network is a
  function from URL and fetch index to a CSV-parse outcome.
-/

namespace TutoSV

/-- A pandas cell: numeric entry, non-numeric text entry, or NaN. -/
inductive Cell where
  | num (q : ℚ)
  | str (s : String)
  | missing
deriving DecidableEq

/-- The numeric content of a cell, if any. -/
def Cell.numVal? : Cell → Option ℚ
  | .num q => some q
  | _ => none

/-- Whether a cell is numeric. -/
def Cell.isNum : Cell → Bool
  | .num _ => true
  | _ => false

/-- `pd.to_numeric(-, errors='coerce')` on one cell: non-numeric entries
become missing (NaN). -/
def toNumeric : Cell → Cell
  | .num q => .num q
  | .str _ => .missing
  | .missing => .missing

/-- A pandas DataFrame: column names plus rows of cells aligned with them. -/
structure DataFrame where
  cols : List String
  rows : List (List Cell)
deriving DecidableEq

/-- Index of the first occurrence of a column name (pandas column lookup). -/
def colIdx : List String → String → Option Nat
  | [], _ => none
  | c :: cs, x => if c == x then some 0 else (colIdx cs x).map (· + 1)

/-- Rectangularity: every row has exactly one cell per column.  pandas
DataFrames are always rectangular; the Lean model has to state it. -/
def DataFrame.wf (df : DataFrame) : Bool :=
  df.rows.all (fun r => r.length == df.cols.length)

/-- Read a column of the table (`data[c]`); `none` models the KeyError
raised when the column is absent. -/
def DataFrame.getCol? (df : DataFrame) (c : String) : Option (List Cell) :=
  (colIdx df.cols c).map (fun i => df.rows.map (fun r => r.getD i .missing))

/-- Read column `c` of one row, defaulting to NaN when absent. -/
def getCellD (df : DataFrame) (r : List Cell) (c : String) : Cell :=
  match colIdx df.cols c with
  | some i => r.getD i .missing
  | none => .missing

/-- Read column `c` of one row; `none` models a KeyError. -/
def getCell? (df : DataFrame) (r : List Cell) (c : String) : Option Cell :=
  (colIdx df.cols c).map (fun i => r.getD i .missing)

/-- Column assignment `data[c] = vals`: overwrite the existing column, or
append a new column at the right edge of the table. -/
def DataFrame.setCol (df : DataFrame) (c : String) (vals : List Cell) : DataFrame :=
  match colIdx df.cols c with
  | some i => { df with rows := (df.rows.zip vals).map (fun p => p.1.set i p.2) }
  | none => { cols := df.cols ++ [c], rows := (df.rows.zip vals).map (fun p => p.1 ++ [p.2]) }

/-- Apply `f` to every cell of column `c` in place (used for
`data[c] = pd.to_numeric(data[c])`-style coercions of existing columns). -/
def DataFrame.mapCol (df : DataFrame) (c : String) (f : Cell → Cell) : DataFrame :=
  match colIdx df.cols c with
  | some i => { df with rows := df.rows.map (fun r => r.set i (f (r.getD i .missing))) }
  | none => df

/-- Distinct values of a list in order of first occurrence, with fuel making
the recursion structural (the fuel is the list length, which bounds the
recursion depth, so it never runs out). -/
def firstOccsF : Nat → List Cell → List Cell
  | _, [] => []
  | 0, _ => []
  | fuel + 1, x :: xs => x :: firstOccsF fuel (xs.filter (fun y => !(y == x)))

/-- Distinct values of a list in order of first occurrence. -/
def firstOccs (l : List Cell) : List Cell := firstOccsF l.length l

/-- Descending order on counted categories, for `value_counts`. -/
def countGE (a b : Cell × Nat) : Prop := b.2 ≤ a.2

instance : DecidableRel countGE := fun a b => Nat.decLe b.2 a.2

/-- `Series.value_counts()`: count each distinct non-NaN value and sort by
descending count.  pandas keeps ties in order of first occurrence, i.e. the
descending sort is stable; `List.insertionSort` is a stable sort. -/
def value_counts (xs : List Cell) : List (Cell × Nat) :=
  let present := xs.filter (fun c => !(c == Cell.missing))
  ((firstOccs present).map (fun v => (v, present.count v))).insertionSort countGE

/-- The counts table before the descending sort: distinct non-NaN values in
first-occurrence order, each with its multiplicity. -/
def countsInOrder (xs : List Cell) : List (Cell × Nat) :=
  let present := xs.filter (fun c => !(c == Cell.missing))
  (firstOccs present).map (fun v => (v, present.count v))

/-- Field division on ℚ, routed through `Rat.divInt` so that it evaluates
inside the kernel (`Rat.inv`, hence `(/)`, is irreducible); `qdiv_eq` below
proves it equal to `(/)`. -/
def qdiv (a b : ℚ) : ℚ := Rat.divInt (a.num * b.den) (a.den * b.num)

/-- Addition on ℚ, routed through `Rat.divInt` so that it evaluates inside
the kernel (`Rat.add` is irreducible); `qadd_eq` below proves it equal to
`(+)`. -/
def qadd (a b : ℚ) : ℚ := Rat.divInt (a.num * b.den + b.num * a.den) (a.den * b.den)

/-- Sum of a list of rationals via `qadd`; equal to `List.sum` by
`qsum_eq` below. -/
def qsum : List ℚ → ℚ
  | [] => 0
  | x :: xs => qadd x (qsum xs)

/-- `Series.mean()`: mean of the numeric entries, NaN-skipping; `none` when
every entry is missing. -/
def colMean (xs : List Cell) : Option ℚ :=
  let nums := xs.filterMap Cell.numVal?
  if nums.isEmpty then none else some (qdiv (qsum nums) nums.length)

/-- `DataFrame.mean(axis=1)` on one row: NaN-skipping mean of the row's
numeric cells, NaN when all are missing. -/
def rowMean (cells : List Cell) : Cell :=
  let nums := cells.filterMap Cell.numVal?
  if nums.isEmpty then .missing else .num (qdiv (qsum nums) nums.length)

/-! ## Aggregators and chart builders of src/studentsurvey.py -/

/-- The 12 GPA column names of `clean_gpa_data`. -/
def gpa_cols : List String :=
  ["1st Year Semester 1", "1st Year Semester 2", "1st Year Semester 3",
   "2nd Year Semester 1", "2nd Year Semester 2", "2nd Year Semester 3",
   "3rd Year Semester 1", "3rd Year Semester 2", "3rd Year Semester 3",
   "4th Year Semester 1", "4th Year Semester 2", "4th Year Semester 3"]

/-- The canonical semester order of `clean_gpa_data`. -/
def semester_order : List String :=
  ["1Y S1", "1Y S2", "1Y S3",
   "2Y S1", "2Y S2", "2Y S3",
   "3Y S1", "3Y S2", "3Y S3",
   "4Y S1", "4Y S2", "4Y S3"]

/-- Python `str.replace` on character lists: replace every non-overlapping
occurrence of `pat` (scanning left to right) by `rep`.  Structural, so it
evaluates inside the kernel. -/
def replaceList (pat rep : List Char) : Nat → List Char → List Char
  | _, [] => []
  | 0, l => l
  | fuel + 1, c :: cs =>
    if pat ≠ [] ∧ pat.isPrefixOf (c :: cs) then
      rep ++ replaceList pat rep fuel ((c :: cs).drop pat.length)
    else
      c :: replaceList pat rep fuel cs

/-- Python `str.replace` on strings.  The fuel argument of `replaceList` is
the input length, which bounds the number of scanning steps, so the fuel
never runs out. -/
def strReplace (s pat rep : String) : String :=
  ⟨replaceList pat.data rep.data s.data.length s.data⟩

/-- The chained `str.replace` calls that compact a GPA column name into a
semester tag. -/
def renameSemester (s : String) : String :=
  strReplace (strReplace (strReplace (strReplace (strReplace s
    " Year Semester " "Y S") "1st" "1") "2nd" "2") "3rd" "3") "4th" "4"

/-- Sort key of the ordered `pd.Categorical` over semester tags: position in
the canonical order, with unknown tags (NaN category) sorted last. -/
def semIdx (s : String) : Nat :=
  match colIdx semester_order s with
  | some i => i
  | none => semester_order.length

/-- `clean_gpa_data`: coerce the 12 GPA columns to numeric, take NaN-skipping
column means, rename columns to semester tags, sort by the canonical
categorical order (stably, as pandas `sort_values` on a categorical), and
drop rows whose mean is NaN.  `none` models the KeyError on a missing GPA
column.  The source mutates only its own argument, which its caller passes
as a copy. -/
def clean_gpa_data (df : DataFrame) : Option (List (String × ℚ)) :=
  match gpa_cols.mapM df.getCol? with
  | none => none
  | some cols =>
    let means := (gpa_cols.zip cols).map
      (fun p => (renameSemester p.1, colMean (p.2.map toNumeric)))
    let sorted := means.insertionSort (fun a b => semIdx a.1 ≤ semIdx b.1)
    some (sorted.filterMap (fun p => p.2.map (fun m => (p.1, m))))

/-- The gender count aggregator of `plot_gender_distribution`:
`data['Gender'].value_counts()`. -/
def gender_counts (df : DataFrame) : Option (List (Cell × Nat)) :=
  (df.getCol? "Gender").map value_counts

/-- The best-aspect column of `plot_top_best_aspects`. -/
def aspect_column : String := "Q7. In your opinion,the best aspect of the program is"

/-- The top-5 best-aspect aggregator of `plot_top_best_aspects`:
`data[aspect_column].value_counts().head(5)`. -/
def best_aspect_counts (df : DataFrame) : Option (List (Cell × Nat)) :=
  (df.getCol? aspect_column).map (fun xs => (value_counts xs).take 5)

/-- The four expectation columns of `plot_expectation_comparison`. -/
def expectation_cols : List String :=
  ["Q1 [What was your expectation about the University as related to quality of education?]",
   "Q2 [What was your expectation about the University as related to quality of Faculty?]",
   "Q3 [What was your expectation about the University as related to quality of resources?]",
   "Q4 [What was your expectation about the University as related to quality of learning environment?]"]

/-- The satisfaction column of `plot_expectation_comparison`. -/
def satisfaction_col : String := "Q5 [To what extent your expectation was met?]"

/-- The label renaming applied to the melted metric column. -/
def metricLabel (s : String) : String :=
  if s == "Mean Expectation" then "Average Initial Expectation"
  else if s == satisfaction_col then "Expectation Met Score"
  else s

/-- The per-row `data[expectation_cols].mean(axis=1)` series; `none` models
the KeyError on a missing expectation column. -/
def meanExpectationSeries (df : DataFrame) : Option (List Cell) :=
  df.rows.mapM (fun r => (expectation_cols.mapM (getCell? df r)).map rowMean)

/-- The data preparation of `plot_expectation_comparison`: assign the
row-wise mean expectation into the table (an in-place mutation of the
caller's table), melt the mean column and the satisfaction column into long
form, drop melted rows whose Score is NaN, and rename the metric labels.
Returns the box-plot table together with the mutated table. -/
def expectationPrep (df : DataFrame) : Option (List (String × Cell) × DataFrame) :=
  match meanExpectationSeries df with
  | none => none
  | some means =>
    let df1 := df.setCol "Mean Expectation" means
    match df1.getCol? "Mean Expectation", df1.getCol? satisfaction_col with
    | some meCol, some satCol =>
      let melted := meCol.map (fun v => ("Mean Expectation", v)) ++
        satCol.map (fun v => (satisfaction_col, v))
      let plotData := (melted.filter (fun p => !(p.2 == Cell.missing))).map
        (fun p => (metricLabel p.1, p.2))
      some (plotData, df1)
    | _, _ => none

/-- The two yes/no improvement questions of
`plot_improvement_perception_by_gender`. -/
def q_edu : String :=
  "Do you feel that the quality of education improved at EU over the last year?"

/-- Second improvement question. -/
def q_img : String :=
  "Do you feel that the image of the University improved over the last year?"

/-- Lexicographic order on strings by code point (Python string `<`),
structurally recursive so it evaluates in the kernel. -/
def charListLT : List Char → List Char → Bool
  | [], [] => false
  | [], _ :: _ => true
  | _ :: _, [] => false
  | a :: as, b :: bs =>
    if a.toNat < b.toNat then true
    else if b.toNat < a.toNat then false
    else charListLT as bs

/-- Group-key order for `groupby('Gender')`: pandas sorts the distinct
non-NaN keys (string order on the survey's gender labels). -/
def cellLE : Cell → Cell → Bool
  | .num a, .num b => decide (a ≤ b)
  | .str a, .str b => charListLT a.data b.data || a == b
  | .num _, .str _ => true
  | .str _, .num _ => false
  | .missing, _ => true
  | _, .missing => false

/-- The distinct non-NaN gender values, in the sorted order pandas
`groupby` emits groups. -/
def genderKeys (xs : List Cell) : List Cell :=
  (firstOccs (xs.filter (fun c => !(c == Cell.missing)))).insertionSort
    (fun a b => cellLE a b = true)

/-- The rows of one gender group. -/
def genderGroup (df : DataFrame) (g : Cell) : List (List Cell) :=
  df.rows.filter (fun r => getCellD df r "Gender" == g)

/-- `(x == 'Yes').sum() / x.shape[0]` for one group and one question column:
the fraction of Yes answers among all rows of the group. -/
def yesFraction (df : DataFrame) (rows : List (List Cell)) (q : String) : ℚ :=
  qdiv (rows.countP (fun r => getCellD df r q == Cell.str "Yes") : ℚ) rows.length

/-- The label renaming applied to the melted question column. -/
def questionLabel (s : String) : String :=
  if s == q_edu then "Quality of Education Improved"
  else if s == q_img then "University Image Improved"
  else s

/-- The data preparation of `plot_improvement_perception_by_gender`: group
by Gender, take the per-group fraction of Yes answers to each of the two
questions, and melt with the education question block first.  `none` models
the KeyError on a missing column. -/
def improvementPrep (df : DataFrame) :
    Option (List (Cell × String × ℚ) × DataFrame) :=
  match df.getCol? "Gender", colIdx df.cols q_edu, colIdx df.cols q_img with
  | some gcol, some _, some _ =>
    let keys := genderKeys gcol
    some ((keys.map (fun g => (g, questionLabel q_edu, yesFraction df (genderGroup df g) q_edu))) ++
      (keys.map (fun g => (g, questionLabel q_img, yesFraction df (genderGroup df g) q_img))),
      df)
  | _, _, _ => none

/-- The data preparation of `plot_policy_vs_implementation_ratings`: coerce
every `Area of Evaluation*` and `Item*` column to numeric in place (a
mutation of the caller's table), then take the overall mean of the row-wise
means of each block.  Total: the coerced columns are drawn from the table's
own column list. -/
def policyPrep (df : DataFrame) : (Option ℚ × Option ℚ) × DataFrame :=
  let areaCols := df.cols.filter (fun c => c.startsWith "Area of Evaluation")
  let itemCols := df.cols.filter (fun c => c.startsWith "Item")
  let df1 := (areaCols ++ itemCols).foldl (fun d c => d.mapCol c toNumeric) df
  let avg_area := colMean (df1.rows.map
    (fun r => rowMean (areaCols.map (fun c => getCellD df1 r c))))
  let avg_item := colMean (df1.rows.map
    (fun r => rowMean (itemCols.map (fun c => getCellD df1 r c))))
  ((avg_area, avg_item), df1)

/-! ## Page elements, loader and page composition -/

/-- The payload of one rendered Plotly chart. -/
inductive ChartData where
  | pie (counts : List (Cell × Nat))
  | line (pts : List (String × ℚ))
  | box (pts : List (String × Cell))
  | hbar (counts : List (Cell × Nat))
  | groupedBar (pts : List (Cell × String × ℚ))
  | bar2 (policyAvg itemAvg : Option ℚ)
deriving DecidableEq

/-- One element of the rendered Streamlit page.  Static captions are
abbreviated to their opening words; their exact text plays no role. -/
inductive Elem where
  | header (s : String)
  | title (s : String)
  | metric (label value : String)
  | markdown (s : String)
  | error (s : String)
  | dataframe (df : DataFrame)
  | subheader (s : String)
  | chart (c : ChartData)
  | info (s : String)
  | sidebarInfo (s : String)
deriving DecidableEq

/-- `plot_gender_distribution`: pie chart of the Gender value counts; the
table is read, never written. -/
def plot_gender_distribution (df : DataFrame) : Option (ChartData × DataFrame) :=
  (gender_counts df).map (fun gc => (.pie gc, df))

/-- `plot_gpa_trend`: line chart of `clean_gpa_data` applied to
`data.copy()`, so the coercions inside `clean_gpa_data` touch only the
copy and the caller table comes back unchanged. -/
def plot_gpa_trend (df : DataFrame) : Option (ChartData × DataFrame) :=
  (clean_gpa_data df).map (fun m => (.line m, df))

/-- `plot_expectation_comparison`: box plot over the melted table; the
`Mean Expectation` column assignment mutates the caller table. -/
def plot_expectation_comparison (df : DataFrame) : Option (ChartData × DataFrame) :=
  (expectationPrep df).map (fun r => (.box r.1, r.2))

/-- `plot_top_best_aspects`: horizontal bar chart of the top-5 counts; the
table is read, never written. -/
def plot_top_best_aspects (df : DataFrame) : Option (ChartData × DataFrame) :=
  (best_aspect_counts df).map (fun bc => (.hbar bc, df))

/-- `plot_improvement_perception_by_gender`: grouped bar chart of the
per-gender Yes proportions; the table is read, never written. -/
def plot_improvement_perception_by_gender (df : DataFrame) :
    Option (ChartData × DataFrame) :=
  (improvementPrep df).map (fun r => (.groupedBar r.1, r.2))

/-- `plot_policy_vs_implementation_ratings`: two-bar chart of the two block
averages; the in-place numeric coercion mutates the caller table. -/
def plot_policy_vs_implementation_ratings (df : DataFrame) : ChartData × DataFrame :=
  let r := policyPrep df
  (.bar2 r.1.1 r.1.2, r.2)

/-- The process-wide `st.cache_data` state: the never-evicted cache keyed by
URL, and how many network fetches have happened. -/
structure LoadState where
  cache : List (String × Option DataFrame)
  fetches : Nat
deriving DecidableEq

/-- Lookup in the memoization cache. -/
def cacheLookup : List (String × Option DataFrame) → String → Option (Option DataFrame)
  | [], _ => none
  | (k, v) :: rest, url => if k == url then some v else cacheLookup rest url

/-- The CSV locator both scripts load. -/
def URL : String :=
  "https://raw.githubusercontent.com/Wanioooo/tuto-SV/refs/heads/main/arts_faculty_data.csv"

/-- The `st.error` text emitted by `load_data` on a fetch/parse failure. -/
def errText (e : String) : String :=
  "🚨 An error occurred while loading data: " ++ e

/-- `load_data` under `st.cache_data`: on a cache hit return the memoized
result (success or failure) without touching the network; on a miss run the
body, which fetches and parses the CSV, catches every exception into a
user-visible `st.error` plus the failure value `None`, and memoizes the
returned value.  `fetch url n` is the outcome the network would give the
`n`-th fetch of the process, so a changed remote is a changed `fetch` at a
later index. -/
def load_data (fetch : String → Nat → Except String DataFrame) (s : LoadState)
    (url : String) : Option DataFrame × List Elem × LoadState :=
  match cacheLookup s.cache url with
  | some v => (v, [], s)
  | none =>
    match fetch url s.fetches with
    | .ok df => (some df, [], ⟨s.cache ++ [(url, some df)], s.fetches + 1⟩)
    | .error e => (none, [.error (errText e)], ⟨s.cache ++ [(url, none)], s.fetches + 1⟩)

/-- One chart panel of the studentsurvey page: the static elements rendered
before the chart call, the chart builder, and its static caption. -/
structure Panel where
  pre : List Elem
  build : DataFrame → Option (ChartData × DataFrame)
  caption : String

/-- Render a sequence of chart panels, threading the shared table through
the chart builders (the script passes the same `df` object to each, so an
in-place mutation by one builder is seen by the next); a `none` from a
builder is an uncaught exception, aborting the page at that point. -/
def renderPanels : List Panel → DataFrame → List Elem
  | [], _ => []
  | p :: ps, df =>
    p.pre ++
      match p.build df with
      | none => []
      | some (c, df1) => [.chart c, .info p.caption] ++ renderPanels ps df1

/-- The six chart panels of src/studentsurvey.py, in layout order. -/
def surveyPanels : List Panel :=
  [⟨[.header "📊 Demographic and Academic Performance", .subheader "Gender Distribution"],
    plot_gender_distribution,
    "The people who took this survey are mostly women"⟩,
   ⟨[.subheader "Mean GPA Trend"], plot_gpa_trend,
    "Student grades are very consistent over their four years"⟩,
   ⟨[.header "💡 Expectation and Satisfaction Analysis",
     .subheader "Initial Expectation vs. Satisfaction"],
    plot_expectation_comparison,
    "The faculty has done a great job"⟩,
   ⟨[.subheader "Top Best Aspects of the Program"], plot_top_best_aspects,
    "The best things about this program are the professors"⟩,
   ⟨[.header "📈 Improvement Perception and Overall Rating",
     .subheader "Perception of University Improvement by Gender"],
    plot_improvement_perception_by_gender,
    "Men and women see the progress of the university differently"⟩,
   ⟨[.subheader "Average Rating: Policy vs. Implementation"],
    (fun df => some (plot_policy_vs_implementation_ratings df)),
    "Students approve of the written rules and plans more"⟩]

/-- The four hard-coded headline metric tiles of src/studentsurvey.py. -/
def metricTiles : List Elem :=
  [.metric "PLO 2" "3.3", .metric "PLO 3" "3.5",
   .metric "PLO 4" "4.0", .metric "PLO 5" "4.3"]

/-- The whole rendered studentsurvey page as a function of the network.  On
`load_data` returning `None` the script calls `st.stop()`, so nothing after
the error message renders.  `df = arts_df.copy()` is a value-identical
copy. -/
def studentsurveyPage (fetch : String → Nat → Except String DataFrame) : List Elem :=
  let r := load_data fetch ⟨[], 0⟩ URL
  [Elem.header "Scientific Visualization",
   Elem.title "🎓 Arts Faculty Student Survey Analysis"]
    ++ metricTiles
    ++ [Elem.markdown "Exploring student demographics, academic performance, and satisfaction using Plotly visualizations."]
    ++ r.2.1
    ++ match r.1 with
       | none => []
       | some arts_df =>
         [Elem.header "🔍 Data Preview", Elem.dataframe arts_df]
           ++ renderPanels surveyPanels arts_df

/-- The whole rendered tuto_sv page as a function of the network.  On a
failed load the data preview and the chart are skipped (the body is guarded
by `arts_df is not None`) but the sidebar note still renders; a KeyError on
the Gender column aborts the script before the sidebar note. -/
def tutoSvPage (fetch : String → Nat → Except String DataFrame) : List Elem :=
  let r := load_data fetch ⟨[], 0⟩ URL
  [Elem.header "Scientific Visualization",
   Elem.title "Arts Faculty Data: Gender Distribution",
   Elem.markdown "Loading data and visualizing the distribution of students by gender."]
    ++ r.2.1
    ++ match r.1 with
       | none => [Elem.sidebarInfo "To run this application"]
       | some arts_df =>
         [Elem.subheader "Raw Data Preview",
          Elem.dataframe ⟨arts_df.cols, arts_df.rows.take 5⟩,
          Elem.subheader "Distribution of Gender in Arts Faculty"]
           ++ match gender_counts arts_df with
              | none => []
              | some gc => [Elem.chart (.pie gc), Elem.sidebarInfo "To run this application"]

/-! ## Derived predicates and concrete tables used in the verification -/

/-- `countGE` is total. -/
instance : IsTotal (Cell × Nat) countGE := ⟨fun a b => Nat.le_total b.2 a.2⟩

/-- `countGE` is transitive. -/
instance : IsTrans (Cell × Nat) countGE := ⟨fun _ _ _ hab hbc => Nat.le_trans hbc hab⟩

/-- Whether a page element is a headline metric tile. -/
def isMetric : Elem → Bool
  | .metric _ _ => true
  | _ => false

/-- Whether a page element shows loaded data (a chart or a table preview). -/
def isChartOrTable : Elem → Bool
  | .chart _ => true
  | .dataframe _ => true
  | _ => false

/-- The spec scenario table: a single Gender column holding F, F, M. -/
def exGenderTable : DataFrame :=
  ⟨["Gender"], [[.str "F"], [.str "F"], [.str "M"]]⟩

/-- A table whose best-aspect column has six distinct values. -/
def sixAspectsTable : DataFrame :=
  ⟨[aspect_column],
   [[.str "Professors"], [.str "Teaching"], [.str "Library"],
    [.str "Labs"], [.str "Sports"], [.str "Clubs"]]⟩

/-- A table with a Gender column and a best-aspect column (two distinct
aspects). -/
def genderAspectTable : DataFrame :=
  ⟨["Gender", aspect_column],
   [[.str "F", .str "Teachers"], [.str "F", .str "Professors"],
    [.str "M", .str "Teachers"]]⟩

/-- A best-aspect table with a tie between two aspects. -/
def aspectTieTable : DataFrame :=
  ⟨[aspect_column],
   [[.str "Teachers"], [.str "Teachers"], [.str "Professors"], [.str "Library"]]⟩

/-- A table holding the twelve GPA columns, one numeric row. -/
def gpaTable : DataFrame :=
  ⟨gpa_cols, [[.num 2, .num 3, .num 2, .num 3, .num 2, .num 3,
               .num 2, .num 3, .num 2, .num 3, .num 2, .num 3]]⟩

/-- A table holding the twelve GPA columns where every entry is a
non-numeric string. -/
def gpaStrTable : DataFrame :=
  ⟨gpa_cols, [List.replicate 12 (Cell.str "N/A"), List.replicate 12 (Cell.str "abs")]⟩

/-- The expectation/satisfaction table of one row whose Q1 is missing and
whose Q2, Q3, Q4 and Q5 are present. -/
def expTable : DataFrame :=
  ⟨expectation_cols ++ [satisfaction_col],
   [[.missing, .num 4, .num 4, .num 4, .num 5]]⟩

/-- A Gender/improvement-questions table. -/
def impTable : DataFrame :=
  ⟨["Gender", q_edu, q_img],
   [[.str "F", .str "Yes", .str "No"],
    [.str "F", .str "Yes", .str "Yes"],
    [.str "M", .str "No", .str "No"]]⟩

/-- A one-row table used as the recovered fetch result. -/
def smallTable : DataFrame := ⟨["Gender"], [[.str "F"]]⟩

/-- A network that fails its first fetch and succeeds afterwards (the
remote recovers after the first attempt). -/
def failThenOkFetch : String → Nat → Except String DataFrame :=
  fun _ n => if n == 0 then .error "connection refused" else .ok smallTable

/-- A network that always fails. -/
def alwaysFailFetch : String → Nat → Except String DataFrame :=
  fun _ _ => .error "HTTP 404"

/-- Whether a row has at least one numeric cell among the four expectation
columns (exactly the rows whose row-wise mean expectation is defined). -/
def hasNumericExpectation (df : DataFrame) (r : List Cell) : Bool :=
  expectation_cols.any (fun c => (getCellD df r c).isNum)

/-- The table `expTable` after `plot_expectation_comparison` has assigned
its `Mean Expectation` column. -/
def expMutTable : DataFrame :=
  ⟨(expectation_cols ++ [satisfaction_col]) ++ ["Mean Expectation"],
   [[Cell.missing, Cell.num 4, Cell.num 4, Cell.num 4, Cell.num 5, Cell.num 4]]⟩

/-! ## General lemmas about the embedded operations -/

/-- The numerator of a rational is the rational times its denominator. -/
theorem rat_num_eq (x : ℚ) : (x.num : ℚ) = x * x.den := by
  have hd : ((x.den : ℚ)) ≠ 0 := by exact_mod_cast x.den_nz
  have h1 : (x.num : ℚ) / x.den * x.den = x * x.den := by rw [Rat.num_div_den]
  rw [div_mul_cancel₀ _ hd] at h1
  exact h1

/-- `qdiv` is field division on ℚ. -/
theorem qdiv_eq (a b : ℚ) : qdiv a b = a / b := by
  rw [qdiv, Rat.divInt_eq_div]
  rcases eq_or_ne b 0 with hb | hb
  · subst hb; simp
  · have hbn : (b.num : ℚ) ≠ 0 := by exact_mod_cast Rat.num_ne_zero.mpr hb
    have had : ((a.den : ℚ)) ≠ 0 := by exact_mod_cast a.den_nz
    push_cast
    rw [div_eq_div_iff (mul_ne_zero had hbn) hb, rat_num_eq a, rat_num_eq b]
    ring

/-- `qadd` is addition on ℚ. -/
theorem qadd_eq (a b : ℚ) : qadd a b = a + b := by
  rw [qadd, Rat.divInt_eq_div]
  have had : ((a.den : ℚ)) ≠ 0 := by exact_mod_cast a.den_nz
  have hbd : ((b.den : ℚ)) ≠ 0 := by exact_mod_cast b.den_nz
  push_cast
  rw [div_eq_iff (mul_ne_zero had hbd), rat_num_eq a, rat_num_eq b]
  ring

/-- `qsum` is `List.sum`. -/
theorem qsum_eq (l : List ℚ) : qsum l = l.sum := by
  induction l with
  | nil => rfl
  | cons x xs ih => rw [qsum, qadd_eq, ih, List.sum_cons]

/-- Every value `firstOccsF` keeps comes from the input list. -/
theorem mem_of_mem_firstOccsF :
    ∀ (fuel : Nat) (l : List Cell) (x : Cell), x ∈ firstOccsF fuel l → x ∈ l := by
  intro fuel
  induction fuel with
  | zero =>
    intro l x hx
    cases l with
    | nil => simp [firstOccsF] at hx
    | cons a as => simp [firstOccsF] at hx
  | succ n ih =>
    intro l x hx
    cases l with
    | nil => simp [firstOccsF] at hx
    | cons a as =>
      rw [firstOccsF] at hx
      rcases List.mem_cons.mp hx with h | h
      · exact h ▸ List.mem_cons_self _ _
      · exact List.mem_cons_of_mem _ (List.mem_of_mem_filter (ih _ _ h))

/-- `firstOccsF` keeps each value at most once. -/
theorem nodup_firstOccsF : ∀ (fuel : Nat) (l : List Cell), (firstOccsF fuel l).Nodup := by
  intro fuel
  induction fuel with
  | zero =>
    intro l
    cases l <;> simp [firstOccsF]
  | succ n ih =>
    intro l
    cases l with
    | nil => simp [firstOccsF]
    | cons a as =>
      rw [firstOccsF]
      refine List.nodup_cons.mpr ⟨fun hmem => ?_, ih _⟩
      have := List.of_mem_filter (mem_of_mem_firstOccsF _ _ _ hmem)
      simp at this

/-- Summing the multiplicities of the distinct values gives back the list
length. -/
theorem sum_count_firstOccsF :
    ∀ (fuel : Nat) (l : List Cell), l.length ≤ fuel →
      ((firstOccsF fuel l).map (fun v => l.count v)).sum = l.length := by
  intro fuel
  induction fuel with
  | zero =>
    intro l hl
    have : l = [] := List.length_eq_zero.mp (Nat.le_zero.mp hl)
    subst this
    simp [firstOccsF]
  | succ n ih =>
    intro l hl
    cases l with
    | nil => simp [firstOccsF]
    | cons a as =>
      rw [firstOccsF]
      have hlen : (as.filter (fun y => !(y == a))).length ≤ n := by
        have := List.length_filter_le (fun y => !(y == a)) as
        simp only [List.length_cons] at hl
        omega
      have hsum := ih (as.filter (fun y => !(y == a))) hlen
      rw [List.map_cons, List.sum_cons, List.count_cons_self]
      have hmap : ((firstOccsF n (as.filter (fun y => !(y == a)))).map
          (fun v => (a :: as).count v)).sum =
          ((firstOccsF n (as.filter (fun y => !(y == a)))).map
          (fun v => (as.filter (fun y => !(y == a))).count v)).sum := by
        apply congrArg
        apply List.map_congr_left
        intro v hv
        have hvne : v ≠ a := by
          have := List.of_mem_filter (mem_of_mem_firstOccsF _ _ _ hv)
          simpa using this
        rw [List.count_cons_of_ne hvne]
        rw [List.count_filter (by simpa using hvne)]
      rw [hmap, hsum]
      have hpart : as.length = (as.filter (fun y => !(y == a))).length + as.count a := by
        rw [← List.countP_eq_length_filter, List.count_eq_countP]
        have hl2 := List.length_eq_countP_add_countP (p := fun y : Cell => y == a) (l := as)
        have he : (fun y : Cell => !(y == a)) = (fun y : Cell => decide ¬((y == a) = true)) := by
          funext y
          cases h : (y == a) <;> simp
        rw [he]
        omega
      simp only [List.length_cons]
      omega

/-- The counts emitted by `value_counts` sum to the number of non-missing
entries of the column. -/
theorem value_counts_sum (xs : List Cell) :
    ((value_counts xs).map Prod.snd).sum = xs.countP (fun c => !(c == Cell.missing)) := by
  rw [value_counts]
  have hperm2 : (((((firstOccs (xs.filter (fun c => !(c == Cell.missing)))).map
      (fun v => (v, (xs.filter (fun c => !(c == Cell.missing))).count v))).insertionSort
        countGE).map Prod.snd)).sum =
      (((firstOccs (xs.filter (fun c => !(c == Cell.missing)))).map
        (fun v => (v, (xs.filter (fun c => !(c == Cell.missing))).count v))).map
        Prod.snd).sum :=
    ((List.perm_insertionSort countGE _).map Prod.snd).sum_eq
  rw [hperm2, List.map_map]
  have hsc := sum_count_firstOccsF (xs.filter (fun c => !(c == Cell.missing))).length
    (xs.filter (fun c => !(c == Cell.missing))) le_rfl
  rw [List.countP_eq_length_filter]
  simp only [firstOccs] at hsc ⊢
  simpa [Function.comp] using hsc

/-! ## The loader cache -/

/-- Entries already in the cache survive appending new entries. -/
theorem cacheLookup_append_of_some {l : List (String × Option DataFrame)} {k : String}
    {v : Option DataFrame} (h : cacheLookup l k = some v)
    (l2 : List (String × Option DataFrame)) :
    cacheLookup (l ++ l2) k = some v := by
  induction l with
  | nil => simp [cacheLookup] at h
  | cons p rest ih =>
    obtain ⟨a, b⟩ := p
    rw [cacheLookup] at h
    rw [List.cons_append, cacheLookup]
    by_cases hak : (a == k) = true
    · simpa [hak] using h
    · simp only [hak, if_false] at h ⊢
      simp only [Bool.false_eq_true, if_false]
      exact ih h

/-- A fresh entry appended to the cache is found. -/
theorem cacheLookup_append_self {l : List (String × Option DataFrame)} {k : String}
    (h : cacheLookup l k = none) (v : Option DataFrame) :
    cacheLookup (l ++ [(k, v)]) k = some v := by
  induction l with
  | nil => simp [cacheLookup]
  | cons p rest ih =>
    obtain ⟨a, b⟩ := p
    rw [cacheLookup] at h
    rw [List.cons_append, cacheLookup]
    by_cases hak : (a == k) = true
    · simp [hak] at h
    · simp only [hak, Bool.false_eq_true, if_false] at h ⊢
      exact ih h

/-- After any call, the loader state caches that call's result under its
locator. -/
theorem load_data_cached (fetch : String → Nat → Except String DataFrame)
    (s : LoadState) (url : String) :
    cacheLookup ((load_data fetch s url).2.2).cache url =
      some (load_data fetch s url).1 := by
  unfold load_data
  cases h : cacheLookup s.cache url with
  | some v => simp [h]
  | none =>
    cases hf : fetch url s.fetches with
    | ok d => simp [cacheLookup_append_self h]
    | error e => simp [cacheLookup_append_self h]

/-- C5: calling the loader twice with the same locator gives the first
call's result back from the cache: the repeated call returns the identical
result value, does not change the loader state (in particular performs no
further network fetch), and no loader call ever invalidates an existing
cache entry. -/
theorem C5_loader_cache (fetch : String → Nat → Except String DataFrame)
    (s : LoadState) (url : String) :
    (load_data fetch (load_data fetch s url).2.2 url).1 = (load_data fetch s url).1 ∧
    (load_data fetch (load_data fetch s url).2.2 url).2.2 = (load_data fetch s url).2.2 ∧
    (load_data fetch (load_data fetch s url).2.2 url).2.2.fetches =
      (load_data fetch s url).2.2.fetches ∧
    (∀ k v, cacheLookup s.cache k = some v →
      ∀ url2, cacheLookup ((load_data fetch s url2).2.2).cache k = some v) := by
  have hcached := load_data_cached fetch s url
  have hsecond : load_data fetch (load_data fetch s url).2.2 url =
      ((load_data fetch s url).1, [], (load_data fetch s url).2.2) := by
    rw [load_data, hcached]
  refine ⟨by rw [hsecond], by rw [hsecond], by rw [hsecond], ?_⟩
  intro k v hk url2
  unfold load_data
  cases h : cacheLookup s.cache url2 with
  | some w => simpa [h] using hk
  | none =>
    cases hf : fetch url2 s.fetches with
    | ok d => simpa using cacheLookup_append_of_some hk _
    | error e => simpa using cacheLookup_append_of_some hk _

/-- C10: the memoization also caches failures.  If the first fetch of a
locator fails, the loader emits the error message and returns `None`, and
every later call with that locator returns `None` from the cache without
another fetch, whatever the network would answer by then. -/
theorem C10_failure_memoized (fetch : String → Nat → Except String DataFrame)
    (url e : String) (h : fetch url 0 = .error e) :
    (load_data fetch ⟨[], 0⟩ url).1 = none ∧
    (load_data fetch ⟨[], 0⟩ url).2.1 = [.error (errText e)] ∧
    (load_data fetch ⟨[], 0⟩ url).2.2.fetches = 1 ∧
    (load_data fetch (load_data fetch ⟨[], 0⟩ url).2.2 url).1 = none ∧
    (load_data fetch (load_data fetch ⟨[], 0⟩ url).2.2 url).2.2 =
      (load_data fetch ⟨[], 0⟩ url).2.2 := by
  have hfirst : load_data fetch ⟨[], 0⟩ url =
      (none, [.error (errText e)], ⟨[(url, none)], 1⟩) := by
    simp [load_data, cacheLookup, h]
  rw [hfirst]
  refine ⟨rfl, rfl, rfl, ?_, ?_⟩ <;> simp [load_data, cacheLookup]

/-- Witness for C10: a network that refuses the first fetch and recovers on
the second still yields `None` on the second loader call, from the cache. -/
theorem C10_failure_memoized_witness :
    failThenOkFetch URL 0 = .error "connection refused" ∧
    failThenOkFetch URL 1 = .ok smallTable ∧
    ((load_data failThenOkFetch ⟨[], 0⟩ URL).1 = none ∧
     (load_data failThenOkFetch ⟨[], 0⟩ URL).2.1 = [.error (errText "connection refused")] ∧
     (load_data failThenOkFetch ⟨[], 0⟩ URL).2.2.fetches = 1 ∧
     (load_data failThenOkFetch (load_data failThenOkFetch ⟨[], 0⟩ URL).2.2 URL).1 = none ∧
     (load_data failThenOkFetch (load_data failThenOkFetch ⟨[], 0⟩ URL).2.2 URL).2.2 =
       (load_data failThenOkFetch ⟨[], 0⟩ URL).2.2) :=
  ⟨rfl, rfl, C10_failure_memoized failThenOkFetch URL "connection refused" rfl⟩

/-! ## Failure renders no chart -/

/-- C3: the loader never raises (it returns a table or the failure value
`None` in every case, by totality of `load_data`); when the fetch fails,
each script shows the user-visible error message and renders no chart and
no data preview: the studentsurvey page stops right after the error, and
the tuto_sv page skips every data-dependent element. -/
theorem C3_fail_fast (fetch : String → Nat → Except String DataFrame) (e : String)
    (h : fetch URL 0 = .error e) :
    studentsurveyPage fetch =
      [Elem.header "Scientific Visualization",
       Elem.title "🎓 Arts Faculty Student Survey Analysis"] ++ metricTiles ++
      [Elem.markdown "Exploring student demographics, academic performance, and satisfaction using Plotly visualizations.",
       Elem.error (errText e)] ∧
    (∀ x ∈ studentsurveyPage fetch, isChartOrTable x = false) ∧
    tutoSvPage fetch =
      [Elem.header "Scientific Visualization",
       Elem.title "Arts Faculty Data: Gender Distribution",
       Elem.markdown "Loading data and visualizing the distribution of students by gender.",
       Elem.error (errText e),
       Elem.sidebarInfo "To run this application"] ∧
    (∀ x ∈ tutoSvPage fetch, isChartOrTable x = false) := by
  have hfirst : load_data fetch ⟨[], 0⟩ URL =
      (none, [.error (errText e)], ⟨[(URL, none)], 1⟩) := by
    simp [load_data, cacheLookup, h]
  have h1 : studentsurveyPage fetch =
      [Elem.header "Scientific Visualization",
       Elem.title "🎓 Arts Faculty Student Survey Analysis"] ++ metricTiles ++
      [Elem.markdown "Exploring student demographics, academic performance, and satisfaction using Plotly visualizations.",
       Elem.error (errText e)] := by
    simp [studentsurveyPage, hfirst]
  have h2 : tutoSvPage fetch =
      [Elem.header "Scientific Visualization",
       Elem.title "Arts Faculty Data: Gender Distribution",
       Elem.markdown "Loading data and visualizing the distribution of students by gender.",
       Elem.error (errText e),
       Elem.sidebarInfo "To run this application"] := by
    simp [tutoSvPage, hfirst]
  refine ⟨h1, ?_, h2, ?_⟩
  · rw [h1]
    simp [metricTiles, isChartOrTable]
  · rw [h2]
    simp [isChartOrTable]

/-- Witness for C3 at the always-failing network. -/
theorem C3_fail_fast_witness :
    alwaysFailFetch URL 0 = .error "HTTP 404" ∧
    (studentsurveyPage alwaysFailFetch =
      [Elem.header "Scientific Visualization",
       Elem.title "🎓 Arts Faculty Student Survey Analysis"] ++ metricTiles ++
      [Elem.markdown "Exploring student demographics, academic performance, and satisfaction using Plotly visualizations.",
       Elem.error (errText "HTTP 404")] ∧
     (∀ x ∈ studentsurveyPage alwaysFailFetch, isChartOrTable x = false) ∧
     tutoSvPage alwaysFailFetch =
      [Elem.header "Scientific Visualization",
       Elem.title "Arts Faculty Data: Gender Distribution",
       Elem.markdown "Loading data and visualizing the distribution of students by gender.",
       Elem.error (errText "HTTP 404"),
       Elem.sidebarInfo "To run this application"] ∧
     (∀ x ∈ tutoSvPage alwaysFailFetch, isChartOrTable x = false)) :=
  ⟨rfl, C3_fail_fast alwaysFailFetch "HTTP 404" rfl⟩

/-! ## The headline metric tiles -/

/-- The loader emits no metric tile. -/
theorem load_msgs_no_metric (fetch : String → Nat → Except String DataFrame)
    (s : LoadState) (url : String) :
    ((load_data fetch s url).2.1).filter isMetric = [] := by
  unfold load_data
  cases h : cacheLookup s.cache url with
  | some v => simp
  | none =>
    cases hf : fetch url s.fetches with
    | ok d => simp
    | error e => simp [isMetric]

/-- Chart panels whose static elements hold no metric tile render no metric
tile. -/
theorem renderPanels_no_metric : ∀ (ps : List Panel) (df : DataFrame),
    (∀ p ∈ ps, p.pre.filter isMetric = []) →
    (renderPanels ps df).filter isMetric = [] := by
  intro ps
  induction ps with
  | nil =>
    intro df _
    simp [renderPanels]
  | cons p rest ih =>
    intro df h
    rw [renderPanels, List.filter_append, h p (List.mem_cons_self _ _)]
    cases hb : p.build df with
    | none => simp
    | some r =>
      obtain ⟨c, df1⟩ := r
      simp [isMetric, ih df1 (fun q hq => h q (List.mem_cons_of_mem _ hq))]

/-- No studentsurvey chart panel carries a metric tile in its static
elements. -/
theorem surveyPanels_pre_no_metric : ∀ p ∈ surveyPanels, p.pre.filter isMetric = [] := by
  intro p hp
  simp only [surveyPanels, List.mem_cons, List.not_mem_nil, or_false] at hp
  rcases hp with rfl | rfl | rfl | rfl | rfl | rfl <;> rfl

/-- The metric tiles of the studentsurvey page are the four hard-coded
tiles, whatever the network returns. -/
theorem studentsurveyPage_metric (fetch : String → Nat → Except String DataFrame) :
    (studentsurveyPage fetch).filter isMetric = metricTiles := by
  simp only [studentsurveyPage]
  cases hr : (load_data fetch ⟨[], 0⟩ URL).1 with
  | none =>
    simp [List.filter_append, load_msgs_no_metric, isMetric, metricTiles]
  | some adf =>
    simp [List.filter_append, load_msgs_no_metric, isMetric, metricTiles,
      renderPanels_no_metric surveyPanels adf surveyPanels_pre_no_metric]

/-- C9: across any two runs of the page (any two datasets, including failed
loads), the four headline tiles are identical, namely the hard-coded
PLO 2 = 3.3, PLO 3 = 3.5, PLO 4 = 4.0, PLO 5 = 4.3; they are not derived
from the loaded data. -/
theorem C9_tiles_fixed (f g : String → Nat → Except String DataFrame) :
    (studentsurveyPage f).filter isMetric = (studentsurveyPage g).filter isMetric ∧
    (studentsurveyPage f).filter isMetric =
      [Elem.metric "PLO 2" "3.3", Elem.metric "PLO 3" "3.5",
       Elem.metric "PLO 4" "4.0", Elem.metric "PLO 5" "4.3"] :=
  ⟨(studentsurveyPage_metric f).trans (studentsurveyPage_metric g).symm,
   studentsurveyPage_metric f⟩

/-! ## Count aggregators -/

/-- `value_counts` is the stable descending sort of the first-occurrence
counts table. -/
theorem value_counts_eq (xs : List Cell) :
    value_counts xs = (countsInOrder xs).insertionSort countGE := rfl

/-- C6 counterexample: with six distinct best aspects, the top-5 best-aspect
aggregator emits counts summing to 5 while its source column has 6
non-missing values, so the emitted counts do not sum to the number of
non-missing values. -/
theorem C6_counterexample :
    (best_aspect_counts sixAspectsTable).map (fun out => (out.map Prod.snd).sum) = some 5 ∧
    (sixAspectsTable.getCol? aspect_column).map
      (fun xs => xs.countP (fun c => !(c == Cell.missing))) = some 6 ∧
    (best_aspect_counts sixAspectsTable).map (fun out => (out.map Prod.snd).sum) ≠
      (sixAspectsTable.getCol? aspect_column).map
        (fun xs => xs.countP (fun c => !(c == Cell.missing))) :=
  ⟨by decide, by decide, by decide⟩

/-- C6 (amended): the gender count aggregator's counts always sum to the
number of non-missing Gender values; the best-aspect aggregator's counts
sum to the number of non-missing values whenever the column has at most
five distinct non-missing values (the `head(5)` truncation can otherwise
drop part of the total); and Gender = [F, F, M] yields exactly
[(F, 2), (M, 1)]. -/
theorem C6_count_sums :
    (∀ (df : DataFrame) (gc : List (Cell × Nat)) (xs : List Cell),
      gender_counts df = some gc → df.getCol? "Gender" = some xs →
      (gc.map Prod.snd).sum = xs.countP (fun c => !(c == Cell.missing))) ∧
    (∀ (df : DataFrame) (bc : List (Cell × Nat)) (xs : List Cell),
      best_aspect_counts df = some bc → df.getCol? aspect_column = some xs →
      (countsInOrder xs).length ≤ 5 →
      (bc.map Prod.snd).sum = xs.countP (fun c => !(c == Cell.missing))) ∧
    gender_counts exGenderTable = some [(Cell.str "F", 2), (Cell.str "M", 1)] := by
  refine ⟨?_, ?_, by decide⟩
  · intro df gc xs hg hxs
    rw [gender_counts, hxs] at hg
    simp only [Option.map_some'] at hg
    obtain rfl : value_counts xs = gc := Option.some.inj hg
    exact value_counts_sum xs
  · intro df bc xs hb hxs hlen
    rw [best_aspect_counts, hxs] at hb
    simp only [Option.map_some'] at hb
    obtain rfl : (value_counts xs).take 5 = bc := Option.some.inj hb
    have hlen2 : (value_counts xs).length ≤ 5 := by
      rw [value_counts_eq, List.length_insertionSort]
      exact hlen
    rw [List.take_of_length_le hlen2]
    exact value_counts_sum xs

/-- Witness for C6 on a Gender plus best-aspect table. -/
theorem C6_count_sums_witness :
    gender_counts genderAspectTable = some [(Cell.str "F", 2), (Cell.str "M", 1)] ∧
    genderAspectTable.getCol? "Gender" = some [Cell.str "F", Cell.str "F", Cell.str "M"] ∧
    (([(Cell.str "F", 2), (Cell.str "M", 1)] : List (Cell × Nat)).map Prod.snd).sum =
      ([Cell.str "F", Cell.str "F", Cell.str "M"] : List Cell).countP
        (fun c => !(c == Cell.missing)) :=
  ⟨by decide, by decide,
   C6_count_sums.1 genderAspectTable [(Cell.str "F", 2), (Cell.str "M", 1)]
     [Cell.str "F", Cell.str "F", Cell.str "M"] (by decide) (by decide)⟩

/-- C7: the top-5 best-aspect aggregator emits pairs sorted by descending
count, truncated to at most five entries; the truncation is a sublist of
the full `value_counts` (so it cannot reorder anything), and the sort is
stable: entries with equal counts keep their first-occurrence order. -/
theorem C7_top5 (df : DataFrame) (out : List (Cell × Nat)) (xs : List Cell)
    (hb : best_aspect_counts df = some out) (hxs : df.getCol? aspect_column = some xs) :
    List.Pairwise (fun a b : Cell × Nat => b.2 ≤ a.2) out ∧
    out.length ≤ 5 ∧
    List.Sublist out (value_counts xs) ∧
    (∀ a b : Cell × Nat, List.Sublist [a, b] (countsInOrder xs) → a.2 = b.2 →
      List.Sublist [a, b] (value_counts xs)) := by
  rw [best_aspect_counts, hxs] at hb
  simp only [Option.map_some'] at hb
  obtain rfl : (value_counts xs).take 5 = out := Option.some.inj hb
  refine ⟨?_, ?_, ?_, ?_⟩
  · have hs : List.Sorted countGE (value_counts xs) := by
      rw [value_counts_eq]
      exact List.sorted_insertionSort countGE _
    exact List.Pairwise.sublist (List.take_sublist _ _) hs
  · exact List.length_take_le 5 _
  · exact List.take_sublist _ _
  · intro a b hsub heq
    rw [value_counts_eq]
    exact List.pair_sublist_insertionSort (le_of_eq heq.symm) hsub

/-- Witness for C7 on a best-aspect column with a tie. -/
theorem C7_top5_witness :
    best_aspect_counts aspectTieTable =
      some [(Cell.str "Teachers", 2), (Cell.str "Professors", 1), (Cell.str "Library", 1)] ∧
    aspectTieTable.getCol? aspect_column =
      some [Cell.str "Teachers", Cell.str "Teachers", Cell.str "Professors", Cell.str "Library"] ∧
    (List.Pairwise (fun a b : Cell × Nat => b.2 ≤ a.2)
      [(Cell.str "Teachers", 2), (Cell.str "Professors", 1), (Cell.str "Library", 1)] ∧
     ([(Cell.str "Teachers", 2), (Cell.str "Professors", 1),
       (Cell.str "Library", 1)] : List (Cell × Nat)).length ≤ 5 ∧
     List.Sublist [(Cell.str "Teachers", 2), (Cell.str "Professors", 1), (Cell.str "Library", 1)]
       (value_counts [Cell.str "Teachers", Cell.str "Teachers", Cell.str "Professors",
         Cell.str "Library"]) ∧
     (∀ a b : Cell × Nat,
       List.Sublist [a, b] (countsInOrder [Cell.str "Teachers", Cell.str "Teachers",
         Cell.str "Professors", Cell.str "Library"]) → a.2 = b.2 →
       List.Sublist [a, b] (value_counts [Cell.str "Teachers", Cell.str "Teachers",
         Cell.str "Professors", Cell.str "Library"]))) :=
  ⟨by decide, by decide,
   C7_top5 aspectTieTable
     [(Cell.str "Teachers", 2), (Cell.str "Professors", 1), (Cell.str "Library", 1)]
     [Cell.str "Teachers", Cell.str "Teachers", Cell.str "Professors", Cell.str "Library"]
     (by decide) (by decide)⟩

/-! ## The GPA aggregator -/

/-- A successful `mapM` over `Option` succeeds pointwise. -/
theorem mapM_option_forall₂ {α β : Type} (f : α → Option β) :
    ∀ {l : List α} {l2 : List β}, l.mapM f = some l2 →
      List.Forall₂ (fun a b => f a = some b) l l2 := by
  intro l
  induction l with
  | nil =>
    intro l2 h
    obtain rfl : ([] : List β) = l2 := Option.some.inj h
    exact List.Forall₂.nil
  | cons a as ih =>
    intro l2 h
    rw [List.mapM_cons] at h
    cases hfa : f a with
    | none => rw [hfa] at h; simp at h
    | some b =>
      rw [hfa] at h
      cases has : as.mapM f with
      | none => rw [has] at h; simp at h
      | some bs =>
        rw [has] at h
        simp only [Option.bind_some, Option.pure_def] at h
        obtain rfl : b :: bs = l2 := Option.some.inj h
        exact List.Forall₂.cons hfa (ih has)

/-- Dropping the rows with an undefined mean keeps a subsequence of the
row labels. -/
theorem filterMap_fst_sublist {α β : Type} (l : List (α × Option β)) :
    List.Sublist ((l.filterMap (fun p => p.2.map (fun m => (p.1, m)))).map Prod.fst)
      (l.map Prod.fst) := by
  induction l with
  | nil => simp
  | cons p rest ih =>
    obtain ⟨a, ob⟩ := p
    cases ob with
    | none =>
      simp only [List.filterMap_cons, Option.map_none', List.map_cons]
      exact ih.cons _
    | some m =>
      simp only [List.filterMap_cons, Option.map_some', List.map_cons]
      exact ih.cons₂ _

/-- The compacted GPA column names are exactly the canonical semester
order. -/
theorem gpa_rename : gpa_cols.map renameSemester = semester_order := by decide

/-- The canonical semester order is sorted by its own sort key. -/
theorem semester_sorted :
    List.Pairwise (fun a b : String => semIdx a ≤ semIdx b) semester_order := by decide

/-- The canonical semester tags are distinct. -/
theorem semester_nodup : semester_order.Nodup := by decide

/-- A column whose coercion is entirely missing has no mean. -/
theorem colMean_toNumeric_none {xs : List Cell} (h : ∀ x ∈ xs, toNumeric x = Cell.missing) :
    colMean (xs.map toNumeric) = none := by
  have hnil : (xs.map toNumeric).filterMap Cell.numVal? = [] := by
    rw [List.filterMap_eq_nil_iff]
    intro a ha
    obtain ⟨x, hx, rfl⟩ := List.mem_map.mp ha
    rw [h x hx]
    rfl
  simp [colMean, hnil]

/-- `clean_gpa_data` on a table holding all twelve GPA columns. -/
theorem clean_gpa_data_eq_some {df : DataFrame} {cols : List (List Cell)}
    (hm : gpa_cols.mapM df.getCol? = some cols) :
    clean_gpa_data df = some ((((gpa_cols.zip cols).map
      (fun p => (renameSemester p.1, colMean (p.2.map toNumeric)))).insertionSort
        (fun a b => semIdx a.1 ≤ semIdx b.1)).filterMap
        (fun p => p.2.map (fun m => (p.1, m)))) := by
  rw [clean_gpa_data, hm]

/-- C4: the GPA aggregator coerces the twelve semester columns treating
non-numeric entries as missing, and its output is a subsequence of the
canonical semester order (hence sorted by it), holds no entry for a
semester whose coerced column is entirely missing, and is empty when every
semester column holds only non-numeric strings. -/
theorem C4_gpa_aggregator (df : DataFrame) (out : List (String × ℚ))
    (h : clean_gpa_data df = some out) :
    List.Sublist (out.map Prod.fst) semester_order ∧
    (∀ (c : String) (xs : List Cell), c ∈ gpa_cols → df.getCol? c = some xs →
      (∀ x ∈ xs, toNumeric x = Cell.missing) →
      renameSemester c ∉ out.map Prod.fst) ∧
    ((∀ (c : String) (xs : List Cell), c ∈ gpa_cols → df.getCol? c = some xs →
      ∀ x ∈ xs, ∃ s, x = Cell.str s) → out = []) := by
  cases hm : gpa_cols.mapM df.getCol? with
  | none => rw [clean_gpa_data, hm] at h; exact absurd h (by simp)
  | some cols =>
    rw [clean_gpa_data_eq_some hm] at h
    have hf2 := mapM_option_forall₂ df.getCol? hm
    have hzip : ∀ {a : String} {b : List Cell}, (a, b) ∈ gpa_cols.zip cols →
        df.getCol? a = some b := (List.forall₂_iff_zip.mp hf2).2
    have hlen : gpa_cols.length = cols.length := (List.forall₂_iff_zip.mp hf2).1
    have hfst : ((gpa_cols.zip cols).map
        (fun p => (renameSemester p.1, colMean (p.2.map toNumeric)))).map Prod.fst =
        semester_order := by
      rw [List.map_map]
      have h1 : (Prod.fst ∘ fun p : String × List Cell =>
          (renameSemester p.1, colMean (p.2.map toNumeric))) =
          (renameSemester ∘ Prod.fst) := rfl
      rw [h1, ← List.map_map, List.map_fst_zip _ _ (le_of_eq hlen), gpa_rename]
    have hsorted : List.Pairwise
        (fun a b : String × Option ℚ => semIdx a.1 ≤ semIdx b.1)
        ((gpa_cols.zip cols).map
          (fun p => (renameSemester p.1, colMean (p.2.map toNumeric)))) := by
      have hp : List.Pairwise (fun a b : String => semIdx a ≤ semIdx b)
          (((gpa_cols.zip cols).map
            (fun p => (renameSemester p.1, colMean (p.2.map toNumeric)))).map Prod.fst) := by
        rw [hfst]
        exact semester_sorted
      rw [List.pairwise_map] at hp
      exact hp
    rw [List.Sorted.insertionSort_eq hsorted] at h
    obtain rfl := (Option.some.inj h).symm
    set means := (gpa_cols.zip cols).map
      (fun p => (renameSemester p.1, colMean (p.2.map toNumeric))) with hmeans
    refine ⟨?_, ?_, ?_⟩
    · rw [← hfst]
      exact filterMap_fst_sublist means
    · intro c xs hc hxs hmiss hmem
      obtain ⟨q, hq, hq1⟩ := List.mem_map.mp hmem
      obtain ⟨p, hp, hpq⟩ := List.mem_filterMap.mp hq
      obtain ⟨m, hpm, rfl⟩ := Option.map_eq_some'.mp hpq
      obtain ⟨pr, hpr, rfl⟩ := List.mem_map.mp hp
      have hprc : pr.1 = c := by
        have hinj := List.inj_on_of_nodup_map (l := gpa_cols) (f := renameSemester)
          (gpa_rename ▸ semester_nodup)
        exact hinj (List.of_mem_zip hpr).1 hc (by simpa using hq1)
      have hcols : df.getCol? pr.1 = some pr.2 := by
        obtain ⟨a, b⟩ := pr
        exact hzip hpr
      rw [hprc, hxs] at hcols
      obtain rfl : xs = pr.2 := Option.some.inj hcols
      rw [colMean_toNumeric_none hmiss] at hpm
      exact Option.noConfusion hpm
    · intro hall
      rw [List.filterMap_eq_nil_iff]
      intro p hp
      obtain ⟨pr, hpr, rfl⟩ := List.mem_map.mp hp
      have hcols : df.getCol? pr.1 = some pr.2 := by
        obtain ⟨a, b⟩ := pr
        exact hzip hpr
      have hstr := hall pr.1 pr.2 (List.of_mem_zip hpr).1 hcols
      have hmiss : ∀ x ∈ pr.2, toNumeric x = Cell.missing := by
        intro x hx
        obtain ⟨s, rfl⟩ := hstr x hx
        rfl
      rw [colMean_toNumeric_none hmiss]
      rfl

/-- Witness for C4 on a fully numeric GPA table. -/
theorem C4_gpa_aggregator_witness :
    clean_gpa_data gpaTable = some
      [("1Y S1", 2), ("1Y S2", 3), ("1Y S3", 2), ("2Y S1", 3), ("2Y S2", 2), ("2Y S3", 3),
       ("3Y S1", 2), ("3Y S2", 3), ("3Y S3", 2), ("4Y S1", 3), ("4Y S2", 2), ("4Y S3", 3)] ∧
    (List.Sublist (([("1Y S1", (2:ℚ)), ("1Y S2", 3), ("1Y S3", 2), ("2Y S1", 3), ("2Y S2", 2),
        ("2Y S3", 3), ("3Y S1", 2), ("3Y S2", 3), ("3Y S3", 2), ("4Y S1", 3), ("4Y S2", 2),
        ("4Y S3", 3)]).map Prod.fst) semester_order ∧
     (∀ (c : String) (xs : List Cell), c ∈ gpa_cols → gpaTable.getCol? c = some xs →
       (∀ x ∈ xs, toNumeric x = Cell.missing) →
       renameSemester c ∉ ([("1Y S1", (2:ℚ)), ("1Y S2", 3), ("1Y S3", 2), ("2Y S1", 3),
         ("2Y S2", 2), ("2Y S3", 3), ("3Y S1", 2), ("3Y S2", 3), ("3Y S3", 2), ("4Y S1", 3),
         ("4Y S2", 2), ("4Y S3", 3)]).map Prod.fst) ∧
     ((∀ (c : String) (xs : List Cell), c ∈ gpa_cols → gpaTable.getCol? c = some xs →
       ∀ x ∈ xs, ∃ s, x = Cell.str s) →
       ([("1Y S1", (2:ℚ)), ("1Y S2", 3), ("1Y S3", 2), ("2Y S1", 3), ("2Y S2", 2), ("2Y S3", 3),
         ("3Y S1", 2), ("3Y S2", 3), ("3Y S3", 2), ("4Y S1", 3), ("4Y S2", 2),
         ("4Y S3", 3)] : List (String × ℚ)) = [])) :=
  ⟨by decide,
   C4_gpa_aggregator gpaTable
     [("1Y S1", 2), ("1Y S2", 3), ("1Y S3", 2), ("2Y S1", 3), ("2Y S2", 2), ("2Y S3", 3),
      ("3Y S1", 2), ("3Y S2", 3), ("3Y S3", 2), ("4Y S1", 3), ("4Y S2", 2), ("4Y S3", 3)]
     (by decide)⟩

/-! ## Column reads under in-place writes -/

/-- On a rectangular table every row is as long as the column list. -/
theorem wf_rows_length {df : DataFrame} (hwf : df.wf = true) :
    ∀ r ∈ df.rows, r.length = df.cols.length := by
  intro r hr
  have := List.all_eq_true.mp hwf r hr
  simpa using this

/-- A found column index points inside the column list. -/
theorem colIdx_lt_length : ∀ {cols : List String} {c : String} {i : Nat},
    colIdx cols c = some i → i < cols.length := by
  intro cols
  induction cols with
  | nil =>
    intro c i h
    simp [colIdx] at h
  | cons a as ih =>
    intro c i h
    rw [colIdx] at h
    by_cases hac : (a == c) = true
    · simp only [hac, if_true] at h
      obtain rfl : (0 : Nat) = i := Option.some.inj h
      simp
    · simp only [hac, Bool.false_eq_true, if_false] at h
      obtain ⟨j, hj, rfl⟩ := Option.map_eq_some'.mp h
      have := ih hj
      simp only [List.length_cons]
      omega

/-- The column name a found index points at. -/
theorem colIdx_getElem? : ∀ {cols : List String} {c : String} {i : Nat},
    colIdx cols c = some i → cols[i]? = some c := by
  intro cols
  induction cols with
  | nil =>
    intro c i h
    simp [colIdx] at h
  | cons a as ih =>
    intro c i h
    rw [colIdx] at h
    by_cases hac : (a == c) = true
    · simp only [hac, if_true] at h
      obtain rfl : (0 : Nat) = i := Option.some.inj h
      simpa using (beq_iff_eq.mp hac)
    · simp only [hac, Bool.false_eq_true, if_false] at h
      obtain ⟨j, hj, rfl⟩ := Option.map_eq_some'.mp h
      simpa using ih hj

/-- Appending columns on the right keeps an existing index. -/
theorem colIdx_append_left : ∀ {cols : List String} {c : String} {i : Nat},
    colIdx cols c = some i → ∀ l2, colIdx (cols ++ l2) c = some i := by
  intro cols
  induction cols with
  | nil =>
    intro c i h l2
    simp [colIdx] at h
  | cons a as ih =>
    intro c i h l2
    rw [colIdx] at h
    rw [List.cons_append, colIdx]
    by_cases hac : (a == c) = true
    · simpa [hac] using h
    · simp only [hac, Bool.false_eq_true, if_false] at h ⊢
      obtain ⟨j, hj, rfl⟩ := Option.map_eq_some'.mp h
      rw [ih hj l2]
      rfl

/-- A name not yet present is found at the end after appending it. -/
theorem colIdx_append_self : ∀ {cols : List String} {c : String},
    colIdx cols c = none → colIdx (cols ++ [c]) c = some cols.length := by
  intro cols
  induction cols with
  | nil =>
    intro c _
    simp [colIdx]
  | cons a as ih =>
    intro c h
    rw [colIdx] at h
    rw [List.cons_append, colIdx]
    by_cases hac : (a == c) = true
    · simp [hac] at h
    · simp only [hac, Bool.false_eq_true, if_false] at h ⊢
      have h2 : colIdx as c = none := by
        cases hx : colIdx as c with
        | none => rfl
        | some j => rw [hx] at h; simp at h
      rw [ih h2]
      rfl

/-- A name distinct from the appended one stays absent. -/
theorem colIdx_append_ne_none : ∀ {cols : List String} {c c2 : String},
    colIdx cols c2 = none → c2 ≠ c → colIdx (cols ++ [c]) c2 = none := by
  intro cols
  induction cols with
  | nil =>
    intro c c2 _ hne
    simp only [List.nil_append, colIdx]
    have : (c == c2) = false := by
      simpa using (Ne.symm hne)
    simp [this, colIdx]
  | cons a as ih =>
    intro c c2 h hne
    rw [colIdx] at h
    rw [List.cons_append, colIdx]
    by_cases hac : (a == c2) = true
    · simp [hac] at h
    · simp only [hac, Bool.false_eq_true, if_false] at h ⊢
      have h2 : colIdx as c2 = none := by
        cases hx : colIdx as c2 with
        | none => rfl
        | some j => rw [hx] at h; simp at h
      rw [ih h2 hne]
      rfl

/-- Setting cell `i` of each row does not change reads at `j ≠ i`. -/
theorem map_getD_zip_set : ∀ {rows : List (List Cell)} {vals : List Cell},
    vals.length = rows.length → ∀ {i j : Nat}, i ≠ j →
    ((rows.zip vals).map (fun p => p.1.set i p.2)).map (fun r => r.getD j Cell.missing) =
      rows.map (fun r => r.getD j Cell.missing) := by
  intro rows
  induction rows with
  | nil =>
    intro vals h i j hij
    simp
  | cons r rs ih =>
    intro vals h i j hij
    cases vals with
    | nil => simp at h
    | cons v vs =>
      simp only [List.zip_cons_cons, List.map_cons]
      congr 1
      · simp [List.getD_eq_getElem?_getD, List.getElem?_set_ne hij]
      · exact ih (by simpa using h) hij

/-- Setting cell `i` of each row reads back the assigned values when `i`
is inside every row. -/
theorem map_getD_zip_set_self : ∀ {rows : List (List Cell)} {vals : List Cell} {i : Nat},
    vals.length = rows.length → (∀ r ∈ rows, i < r.length) →
    ((rows.zip vals).map (fun p => p.1.set i p.2)).map (fun r => r.getD i Cell.missing) =
      vals := by
  intro rows
  induction rows with
  | nil =>
    intro vals i h _
    have : vals = [] := List.length_eq_zero.mp (by simpa using h)
    subst this
    simp
  | cons r rs ih =>
    intro vals i h hlt
    cases vals with
    | nil => simp at h
    | cons v vs =>
      simp only [List.zip_cons_cons, List.map_cons]
      congr 1
      · simp [List.getD_eq_getElem?_getD,
          List.getElem?_set_self (hlt r (List.mem_cons_self _ _))]
      · exact ih (by simpa using h) (fun q hq => hlt q (List.mem_cons_of_mem _ hq))

/-- Appending a cell to each row does not change reads inside the rows. -/
theorem map_getD_zip_append : ∀ {rows : List (List Cell)} {vals : List Cell} {j : Nat},
    vals.length = rows.length → (∀ r ∈ rows, j < r.length) →
    ((rows.zip vals).map (fun p => p.1 ++ [p.2])).map (fun r => r.getD j Cell.missing) =
      rows.map (fun r => r.getD j Cell.missing) := by
  intro rows
  induction rows with
  | nil =>
    intro vals j h _
    simp
  | cons r rs ih =>
    intro vals j h hlt
    cases vals with
    | nil => simp at h
    | cons v vs =>
      simp only [List.zip_cons_cons, List.map_cons]
      congr 1
      · simp [List.getD_eq_getElem?_getD,
          List.getElem?_append_left (hlt r (List.mem_cons_self _ _))]
      · exact ih (by simpa using h) (fun q hq => hlt q (List.mem_cons_of_mem _ hq))

/-- Appending a cell to each row reads back the assigned values at the old
row length. -/
theorem map_getD_zip_append_self : ∀ {rows : List (List Cell)} {vals : List Cell} {L : Nat},
    vals.length = rows.length → (∀ r ∈ rows, r.length = L) →
    ((rows.zip vals).map (fun p => p.1 ++ [p.2])).map (fun r => r.getD L Cell.missing) =
      vals := by
  intro rows
  induction rows with
  | nil =>
    intro vals L h _
    have : vals = [] := List.length_eq_zero.mp (by simpa using h)
    subst this
    simp
  | cons r rs ih =>
    intro vals L h hlen
    cases vals with
    | nil => simp at h
    | cons v vs =>
      simp only [List.zip_cons_cons, List.map_cons]
      congr 1
      · rw [← hlen r (List.mem_cons_self _ _)]
        simp [List.getD_eq_getElem?_getD, List.getElem?_concat_length]
      · exact ih (by simpa using h) (fun q hq => hlen q (List.mem_cons_of_mem _ hq))

/-- Reading back the column just assigned gives the assigned values. -/
theorem getCol?_setCol_self {df : DataFrame} {c : String} {vals : List Cell}
    (hwf : df.wf = true) (hlen : vals.length = df.rows.length) :
    (df.setCol c vals).getCol? c = some vals := by
  have hwf' := wf_rows_length hwf
  rw [DataFrame.setCol]
  cases hci : colIdx df.cols c with
  | some i =>
    rw [DataFrame.getCol?]
    simp only [hci, Option.map_some']
    rw [map_getD_zip_set_self hlen
      (fun r hr => by rw [hwf' r hr]; exact colIdx_lt_length hci)]
  | none =>
    rw [DataFrame.getCol?]
    simp only [colIdx_append_self hci, Option.map_some']
    rw [map_getD_zip_append_self hlen hwf']

/-- Assigning one column leaves every other column unchanged. -/
theorem getCol?_setCol_ne {df : DataFrame} {c : String} {vals : List Cell} {c2 : String}
    (hne : c2 ≠ c) (hwf : df.wf = true) (hlen : vals.length = df.rows.length) :
    (df.setCol c vals).getCol? c2 = df.getCol? c2 := by
  have hwf' := wf_rows_length hwf
  rw [DataFrame.setCol]
  cases hci : colIdx df.cols c with
  | some i =>
    rw [DataFrame.getCol?, DataFrame.getCol?]
    cases hcj : colIdx df.cols c2 with
    | none => simp [hcj]
    | some j =>
      have hij : i ≠ j := by
        intro hji
        subst hji
        have h1 := colIdx_getElem? hci
        have h2 := colIdx_getElem? hcj
        rw [h1] at h2
        exact hne (Option.some.inj h2).symm
      simp only [hcj, Option.map_some']
      rw [map_getD_zip_set hlen hij]
  | none =>
    cases hcj : colIdx df.cols c2 with
    | none =>
      have h2 := colIdx_append_ne_none hcj hne
      rw [DataFrame.getCol?, DataFrame.getCol?]
      simp [hcj, h2]
    | some j =>
      have h2 := colIdx_append_left hcj [c]
      have hjlt : j < df.cols.length := colIdx_lt_length hcj
      rw [DataFrame.getCol?, DataFrame.getCol?]
      simp only [hcj, h2, Option.map_some']
      rw [map_getD_zip_append hlen (fun r hr => by rw [hwf' r hr]; exact hjlt)]

/-- An in-place cell map on one column leaves every other column
unchanged. -/
theorem getCol?_mapCol_ne {df : DataFrame} {c : String} {f : Cell → Cell} {c2 : String}
    (hne : c2 ≠ c) : (df.mapCol c f).getCol? c2 = df.getCol? c2 := by
  rw [DataFrame.mapCol]
  cases hci : colIdx df.cols c with
  | none => rfl
  | some i =>
    rw [DataFrame.getCol?, DataFrame.getCol?]
    cases hcj : colIdx df.cols c2 with
    | none => simp [hcj]
    | some j =>
      have hij : i ≠ j := by
        intro hji
        subst hji
        have h1 := colIdx_getElem? hci
        have h2 := colIdx_getElem? hcj
        rw [h1] at h2
        exact hne (Option.some.inj h2).symm
      simp only [hcj, Option.map_some']
      rw [List.map_map]
      congr 1
      apply List.map_congr_left
      intro r _
      simp [Function.comp, List.getD_eq_getElem?_getD, List.getElem?_set_ne hij]

/-- Coercing a run of columns in place leaves any column outside the run
unchanged. -/
theorem getCol?_foldl_mapCol {c2 : String} : ∀ (l : List String) (df : DataFrame),
    (∀ c ∈ l, c2 ≠ c) →
    (l.foldl (fun d c => d.mapCol c toNumeric) df).getCol? c2 = df.getCol? c2 := by
  intro l
  induction l with
  | nil =>
    intro df _
    rfl
  | cons a as ih =>
    intro df h
    rw [List.foldl_cons, ih _ (fun c hc => h c (List.mem_cons_of_mem _ hc))]
    exact getCol?_mapCol_ne (h a (List.mem_cons_self _ _))

/-- A successful single-cell read agrees with the defaulted read. -/
theorem getCell?_some_getCellD {df : DataFrame} {r : List Cell} {c : String} {x : Cell}
    (h : getCell? df r c = some x) : getCellD df r c = x := by
  rw [getCell?] at h
  rw [getCellD]
  cases hci : colIdx df.cols c with
  | none => rw [hci] at h; simp at h
  | some i =>
    rw [hci] at h
    simp only [Option.map_some'] at h
    exact Option.some.inj h

/-- Pointwise-determined `Forall₂` is a `map`. -/
theorem forall₂_eq_map {α β : Type} {g : α → β} :
    ∀ {l : List α} {l2 : List β}, List.Forall₂ (fun a b => b = g a) l l2 → l2 = l.map g := by
  intro l l2 h
  induction h with
  | nil => rfl
  | cons h1 _ ih => simp [h1, ih]

/-! ## The expectation-comparison aggregator -/

/-- A successful mean-expectation series is the row-wise NaN-skipping mean
of the four expectation cells. -/
theorem meanExpectationSeries_eq {df : DataFrame} {means : List Cell}
    (h : meanExpectationSeries df = some means) :
    means = df.rows.map
      (fun r => rowMean (expectation_cols.map (fun c => getCellD df r c))) := by
  have h2 := mapM_option_forall₂ _ h
  apply forall₂_eq_map
  refine List.Forall₂.imp ?_ h2
  intro r m hrm
  cases hcs : expectation_cols.mapM (getCell? df r) with
  | none => rw [hcs] at hrm; simp at hrm
  | some cs =>
    rw [hcs] at hrm
    simp only [Option.map_some'] at hrm
    obtain rfl : rowMean cs = m := Option.some.inj hrm
    have hcs2 := mapM_option_forall₂ _ hcs
    have hcs3 : cs = expectation_cols.map (fun c => getCellD df r c) :=
      forall₂_eq_map (List.Forall₂.imp
        (fun _ _ hab => (getCell?_some_getCellD hab).symm) hcs2)
    rw [hcs3]

/-- The filtered numeric values of a row are empty exactly when no cell is
numeric. -/
theorem filterMap_numVal_isEmpty (cells : List Cell) :
    (cells.filterMap Cell.numVal?).isEmpty = !(cells.any Cell.isNum) := by
  induction cells with
  | nil => rfl
  | cons x xs ih =>
    cases x with
    | num q => simp [List.filterMap_cons, Cell.numVal?, Cell.isNum]
    | str s => simpa [List.filterMap_cons, Cell.numVal?, Cell.isNum] using ih
    | missing => simpa [List.filterMap_cons, Cell.numVal?, Cell.isNum] using ih

/-- The row-wise mean is NaN exactly when no operand is numeric. -/
theorem rowMean_beq_missing (cells : List Cell) :
    (rowMean cells == Cell.missing) = !(cells.any Cell.isNum) := by
  cases hany : cells.any Cell.isNum with
  | true =>
    have hemp : (cells.filterMap Cell.numVal?).isEmpty = false := by
      rw [filterMap_numVal_isEmpty, hany]
      rfl
    simp [rowMean, hemp]
  | false =>
    have hemp : (cells.filterMap Cell.numVal?).isEmpty = true := by
      rw [filterMap_numVal_isEmpty, hany]
      rfl
    simp [rowMean, hemp]

/-- Counting one metric label in the melted, NaN-dropped, relabelled
long-form table: only the matching block contributes, and it contributes
its non-missing entries. -/
theorem countP_melted (meCol satCol : List Cell) (lbl : String) :
    (((meCol.map (fun v => ("Mean Expectation", v)) ++
       satCol.map (fun v => (satisfaction_col, v))).filter
        (fun p => !(p.2 == Cell.missing))).map
        (fun p => (metricLabel p.1, p.2))).countP (fun e => e.1 == lbl) =
      (if (metricLabel "Mean Expectation" == lbl) = true then
        meCol.countP (fun v => !(v == Cell.missing)) else 0) +
      (if (metricLabel satisfaction_col == lbl) = true then
        satCol.countP (fun v => !(v == Cell.missing)) else 0) := by
  rw [List.countP_map, List.countP_filter, List.countP_append,
    List.countP_map, List.countP_map]
  congr 1
  · cases hb : (metricLabel "Mean Expectation" == lbl) with
    | true =>
      rw [if_pos rfl]
      apply List.countP_congr
      intro v _
      simp [Function.comp, hb]
    | false =>
      rw [if_neg (by simp)]
      rw [List.countP_eq_zero]
      intro v _
      simp [Function.comp, hb]
  · cases hb : (metricLabel satisfaction_col == lbl) with
    | true =>
      rw [if_pos rfl]
      apply List.countP_congr
      intro v _
      simp [Function.comp, hb]
    | false =>
      rw [if_neg (by simp)]
      rw [List.countP_eq_zero]
      intro v _
      simp [Function.comp, hb]

/-- C2 counterexample: the one-row table whose Q1 is missing (and Q2-Q5
present) still contributes both melted entries to the box-plot table, so a
row with a missing operand is not dropped. -/
theorem C2_counterexample :
    getCell? expTable [Cell.missing, Cell.num 4, Cell.num 4, Cell.num 4, Cell.num 5]
      "Q1 [What was your expectation about the University as related to quality of education?]" =
        some Cell.missing ∧
    (expectationPrep expTable).map Prod.fst =
      some [("Average Initial Expectation", Cell.num 4),
            ("Expectation Met Score", Cell.num 5)] ∧
    (expectationPrep expTable).map Prod.fst ≠ some [] :=
  ⟨by decide, by decide, by decide⟩

/-- `expectationPrep` after the mean series succeeded. -/
theorem expectationPrep_eq {df : DataFrame} {means : List Cell}
    (hm : meanExpectationSeries df = some means) :
    expectationPrep df =
      (match (df.setCol "Mean Expectation" means).getCol? "Mean Expectation",
             (df.setCol "Mean Expectation" means).getCol? satisfaction_col with
       | some meCol, some satCol =>
         some (((meCol.map (fun v => ("Mean Expectation", v)) ++
            satCol.map (fun v => (satisfaction_col, v))).filter
             (fun p => !(p.2 == Cell.missing))).map
             (fun p => (metricLabel p.1, p.2)), df.setCol "Mean Expectation" means)
       | _, _ => none) := by
  rw [expectationPrep, hm]

/-- C2 (amended): dropping happens per melted entry, not per respondent
row.  Every entry of the long-form table is non-missing; the number of
`Average Initial Expectation` entries equals the number of rows with at
least one numeric expectation operand (the row-wise mean skips missing
operands and is NaN only when all four are missing); and the number of
`Expectation Met Score` entries equals the number of rows whose Q5 cell is
non-missing. -/
theorem C2_melt_drops_per_entry (df : DataFrame) (pd : List (String × Cell))
    (df1 : DataFrame) (hwf : df.wf = true)
    (h : expectationPrep df = some (pd, df1)) :
    (∀ e ∈ pd, e.2 ≠ Cell.missing) ∧
    pd.countP (fun e => e.1 == "Average Initial Expectation") =
      df.rows.countP (fun r => hasNumericExpectation df r) ∧
    pd.countP (fun e => e.1 == "Expectation Met Score") =
      df.rows.countP (fun r => !(getCellD df r satisfaction_col == Cell.missing)) := by
  cases hm : meanExpectationSeries df with
  | none => rw [expectationPrep, hm] at h; simp at h
  | some means =>
    rw [expectationPrep_eq hm] at h
    have hmeans := meanExpectationSeries_eq hm
    have hlen : means.length = df.rows.length := by
      rw [hmeans, List.length_map]
    cases hme : (df.setCol "Mean Expectation" means).getCol? "Mean Expectation" with
    | none => rw [hme] at h; simp at h
    | some meCol =>
      cases hsat : (df.setCol "Mean Expectation" means).getCol? satisfaction_col with
      | none => rw [hme, hsat] at h; simp at h
      | some satCol =>
        rw [hme, hsat] at h
        simp only [Option.some.injEq, Prod.mk.injEq] at h
        obtain ⟨hpd, hdf1⟩ := h
        have hmec : meCol = means := by
          have hself : (df.setCol "Mean Expectation" means).getCol? "Mean Expectation" =
              some means := getCol?_setCol_self hwf hlen
          rw [hself] at hme
          exact (Option.some.inj hme).symm
        have hsat2 : df.getCol? satisfaction_col = some satCol := by
          have hne : satisfaction_col ≠ "Mean Expectation" := by decide
          rw [← getCol?_setCol_ne hne hwf hlen]
          exact hsat
        subst hpd
        refine ⟨?_, ?_, ?_⟩
        · intro e he
          obtain ⟨p, hp, rfl⟩ := List.mem_map.mp he
          have hq := (List.mem_filter.mp hp).2
          simpa using hq
        · rw [countP_melted]
          rw [if_pos (by decide), if_neg (by decide), Nat.add_zero]
          rw [hmec, hmeans, List.countP_map]
          apply List.countP_congr
          intro r _
          simp [Function.comp, rowMean_beq_missing, List.any_map,
            hasNumericExpectation]
        · rw [countP_melted]
          rw [if_neg (by decide), if_pos (by decide), Nat.zero_add]
          rw [DataFrame.getCol?] at hsat2
          cases hci : colIdx df.cols satisfaction_col with
          | none => rw [hci] at hsat2; simp at hsat2
          | some i =>
            rw [hci] at hsat2
            simp only [Option.map_some'] at hsat2
            obtain rfl : df.rows.map (fun r => r.getD i Cell.missing) = satCol :=
              Option.some.inj hsat2
            rw [List.countP_map]
            apply List.countP_congr
            intro r _
            simp [Function.comp, getCellD, hci]

/-- Witness for C2 on the one-row table with a missing Q1. -/
theorem C2_melt_drops_per_entry_witness :
    expTable.wf = true ∧
    expectationPrep expTable = some
      ([("Average Initial Expectation", Cell.num 4),
        ("Expectation Met Score", Cell.num 5)], expMutTable) ∧
    ((∀ e ∈ ([("Average Initial Expectation", Cell.num 4),
        ("Expectation Met Score", Cell.num 5)] : List (String × Cell)),
        e.2 ≠ Cell.missing) ∧
     ([("Average Initial Expectation", Cell.num 4),
       ("Expectation Met Score", Cell.num 5)] : List (String × Cell)).countP
        (fun e => e.1 == "Average Initial Expectation") =
       expTable.rows.countP (fun r => hasNumericExpectation expTable r) ∧
     ([("Average Initial Expectation", Cell.num 4),
       ("Expectation Met Score", Cell.num 5)] : List (String × Cell)).countP
        (fun e => e.1 == "Expectation Met Score") =
       expTable.rows.countP
        (fun r => !(getCellD expTable r satisfaction_col == Cell.missing))) :=
  ⟨by decide, by decide,
   C2_melt_drops_per_entry expTable
     [("Average Initial Expectation", Cell.num 4), ("Expectation Met Score", Cell.num 5)]
     expMutTable (by decide) (by decide)⟩

/-! ## Table effects of the chart builders -/

/-- The improvement aggregator hands the table back unchanged. -/
theorem improvementPrep_snd {df : DataFrame} {q : List (Cell × String × ℚ) × DataFrame}
    (h : improvementPrep df = some q) : q.2 = df := by
  rw [improvementPrep] at h
  cases h1 : df.getCol? "Gender" with
  | none => rw [h1] at h; simp at h
  | some gcol =>
    rw [h1] at h
    cases h2 : colIdx df.cols q_edu with
    | none => rw [h2] at h; simp at h
    | some i =>
      rw [h2] at h
      cases h3 : colIdx df.cols q_img with
      | none => rw [h3] at h; simp at h
      | some j =>
        rw [h3] at h
        have h4 := Option.some.inj h
        rw [← h4]

/-- C1 counterexample: `plot_expectation_comparison` hands back a table
different from the one it was passed (it has gained the `Mean Expectation`
column), so not every chart builder leaves its table unchanged. -/
theorem C1_counterexample :
    (plot_expectation_comparison expTable).map (fun r => r.2) ≠ some expTable ∧
    (plot_expectation_comparison expTable).map (fun r => r.2) = some expMutTable ∧
    expMutTable ≠ expTable :=
  ⟨by decide, by decide, by decide⟩

/-- C1 (amended): `plot_gender_distribution`, `plot_gpa_trend`,
`plot_top_best_aspects` and `plot_improvement_perception_by_gender` hand
the table back unchanged; `plot_expectation_comparison` writes the
`Mean Expectation` column in place but leaves every other column unchanged;
`plot_policy_vs_implementation_ratings` coerces the `Area of Evaluation*`
and `Item*` columns in place but leaves every other column unchanged.
Those two in-place writes are visible to the chart builders that run
later. -/
theorem C1_chart_builder_effects :
    (∀ (df : DataFrame) (r : ChartData × DataFrame),
      plot_gender_distribution df = some r → r.2 = df) ∧
    (∀ (df : DataFrame) (r : ChartData × DataFrame),
      plot_gpa_trend df = some r → r.2 = df) ∧
    (∀ (df : DataFrame) (r : ChartData × DataFrame),
      plot_top_best_aspects df = some r → r.2 = df) ∧
    (∀ (df : DataFrame) (r : ChartData × DataFrame),
      plot_improvement_perception_by_gender df = some r → r.2 = df) ∧
    (∀ (df : DataFrame) (r : ChartData × DataFrame), df.wf = true →
      plot_expectation_comparison df = some r →
      ∀ c : String, c ≠ "Mean Expectation" → r.2.getCol? c = df.getCol? c) ∧
    (∀ (df : DataFrame) (c : String), c.startsWith "Area of Evaluation" = false →
      c.startsWith "Item" = false →
      (plot_policy_vs_implementation_ratings df).2.getCol? c = df.getCol? c) := by
  refine ⟨?_, ?_, ?_, ?_, ?_, ?_⟩
  · intro df r h
    rw [plot_gender_distribution] at h
    obtain ⟨gc, _, rfl⟩ := Option.map_eq_some'.mp h
    rfl
  · intro df r h
    rw [plot_gpa_trend] at h
    obtain ⟨m, _, rfl⟩ := Option.map_eq_some'.mp h
    rfl
  · intro df r h
    rw [plot_top_best_aspects] at h
    obtain ⟨bc, _, rfl⟩ := Option.map_eq_some'.mp h
    rfl
  · intro df r h
    rw [plot_improvement_perception_by_gender] at h
    obtain ⟨q, hq, rfl⟩ := Option.map_eq_some'.mp h
    exact improvementPrep_snd hq
  · intro df r hwf h c hne
    rw [plot_expectation_comparison] at h
    obtain ⟨q, hq, rfl⟩ := Option.map_eq_some'.mp h
    cases hm : meanExpectationSeries df with
    | none => rw [expectationPrep, hm] at hq; simp at hq
    | some means =>
      rw [expectationPrep_eq hm] at hq
      have hlen : means.length = df.rows.length := by
        rw [meanExpectationSeries_eq hm, List.length_map]
      cases hme : (df.setCol "Mean Expectation" means).getCol? "Mean Expectation" with
      | none => rw [hme] at hq; simp at hq
      | some meCol =>
        cases hsat : (df.setCol "Mean Expectation" means).getCol? satisfaction_col with
        | none => rw [hme, hsat] at hq; simp at hq
        | some satCol =>
          rw [hme, hsat] at hq
          have h4 := Option.some.inj hq
          have h5 : q.2 = df.setCol "Mean Expectation" means := by rw [← h4]
          show q.2.getCol? c = df.getCol? c
          rw [h5]
          exact getCol?_setCol_ne hne hwf hlen
  · intro df c h1 h2
    show ((df.cols.filter (fun c2 => c2.startsWith "Area of Evaluation") ++
       df.cols.filter (fun c2 => c2.startsWith "Item")).foldl
        (fun d c2 => d.mapCol c2 toNumeric) df).getCol? c = df.getCol? c
    apply getCol?_foldl_mapCol
    intro c2 hc2
    rcases List.mem_append.mp hc2 with hmem | hmem
    · have hsw := (List.mem_filter.mp hmem).2
      intro hcc
      subst hcc
      rw [h1] at hsw
      exact Bool.noConfusion hsw
    · have hsw := (List.mem_filter.mp hmem).2
      intro hcc
      subst hcc
      rw [h2] at hsw
      exact Bool.noConfusion hsw

/-- Witness for C1: the expectation chart on `expTable` preserves the Q5
column even though it mutates the table. -/
theorem C1_chart_builder_effects_witness :
    expTable.wf = true ∧
    plot_expectation_comparison expTable = some
      (ChartData.box [("Average Initial Expectation", Cell.num 4),
        ("Expectation Met Score", Cell.num 5)], expMutTable) ∧
    expMutTable.getCol? satisfaction_col = expTable.getCol? satisfaction_col :=
  ⟨by decide, by decide,
   C1_chart_builder_effects.2.2.2.2.1 expTable
     (ChartData.box [("Average Initial Expectation", Cell.num 4),
       ("Expectation Met Score", Cell.num 5)], expMutTable)
     (by decide) (by decide) satisfaction_col (by decide)⟩

/-! ## The proportion aggregator -/

/-- The Yes fraction of a non-empty group lies in the unit interval. -/
theorem yesFraction_bounds {df : DataFrame} {rows : List (List Cell)} (q : String)
    (hne : rows ≠ []) : 0 ≤ yesFraction df rows q ∧ yesFraction df rows q ≤ 1 := by
  rw [yesFraction, qdiv_eq]
  have hlen : 0 < rows.length := List.length_pos.mpr hne
  have hlenq : (0:ℚ) < rows.length := by exact_mod_cast hlen
  constructor
  · apply div_nonneg _ (le_of_lt hlenq)
    positivity
  · rw [div_le_one hlenq]
    exact_mod_cast List.countP_le_length
      (p := fun r => getCellD df r q == Cell.str "Yes")

/-- Every emitted gender key names a non-empty group of rows. -/
theorem genderGroup_ne_nil {df : DataFrame} {gcol : List Cell} {g : Cell}
    (hg : df.getCol? "Gender" = some gcol) (hmem : g ∈ genderKeys gcol) :
    genderGroup df g ≠ [] := by
  have h1 : g ∈ gcol.filter (fun c => !(c == Cell.missing)) := by
    rw [genderKeys] at hmem
    have h2 := (List.perm_insertionSort _ _).mem_iff.mp hmem
    rw [firstOccs] at h2
    exact mem_of_mem_firstOccsF _ _ _ h2
  have h1b : g ∈ gcol := List.mem_of_mem_filter h1
  rw [DataFrame.getCol?] at hg
  cases hci : colIdx df.cols "Gender" with
  | none => rw [hci] at hg; simp at hg
  | some i =>
    rw [hci] at hg
    simp only [Option.map_some'] at hg
    obtain rfl : df.rows.map (fun r => r.getD i Cell.missing) = gcol :=
      Option.some.inj hg
    obtain ⟨r, hr, hrg⟩ := List.mem_map.mp h1b
    intro hnil
    have hin : r ∈ genderGroup df g := by
      rw [genderGroup]
      apply List.mem_filter.mpr
      refine ⟨hr, ?_⟩
      rw [getCellD, hci]
      simpa using hrg
    rw [hnil] at hin
    exact absurd hin (List.not_mem_nil r)

/-- C8: the improvement aggregator groups the rows by their Gender value
and emits, for every gender group and each of the two yes/no questions, the
fraction of Yes answers in that group; every emitted proportion lies in
[0, 1], and there is one entry per (group, question) pair. -/
theorem C8_yes_proportions (df : DataFrame) (out : List (Cell × String × ℚ))
    (df1 : DataFrame) (gcol : List Cell)
    (h : improvementPrep df = some (out, df1))
    (hg : df.getCol? "Gender" = some gcol) :
    (∀ e ∈ out, 0 ≤ e.2.2 ∧ e.2.2 ≤ 1) ∧
    out.length = 2 * (genderKeys gcol).length ∧
    (∀ e ∈ out, e.1 ∈ genderKeys gcol ∧
      (e.2.2 = yesFraction df (genderGroup df e.1) q_edu ∨
       e.2.2 = yesFraction df (genderGroup df e.1) q_img)) := by
  rw [improvementPrep, hg] at h
  cases h2 : colIdx df.cols q_edu with
  | none => rw [h2] at h; simp at h
  | some i =>
    rw [h2] at h
    cases h3 : colIdx df.cols q_img with
    | none => rw [h3] at h; simp at h
    | some j =>
      rw [h3] at h
      have h4 := Option.some.inj h
      have hout : out = (genderKeys gcol).map (fun g => (g, questionLabel q_edu,
          yesFraction df (genderGroup df g) q_edu)) ++
        (genderKeys gcol).map (fun g => (g, questionLabel q_img,
          yesFraction df (genderGroup df g) q_img)) :=
        (congrArg Prod.fst h4).symm
      rw [hout]
      refine ⟨?_, ?_, ?_⟩
      · intro e he
        rcases List.mem_append.mp he with hm | hm
        · obtain ⟨g, hk, rfl⟩ := List.mem_map.mp hm
          exact yesFraction_bounds q_edu (genderGroup_ne_nil hg hk)
        · obtain ⟨g, hk, rfl⟩ := List.mem_map.mp hm
          exact yesFraction_bounds q_img (genderGroup_ne_nil hg hk)
      · simp [List.length_append, List.length_map, Nat.two_mul]
      · intro e he
        rcases List.mem_append.mp he with hm | hm
        · obtain ⟨g, hk, rfl⟩ := List.mem_map.mp hm
          exact ⟨hk, Or.inl rfl⟩
        · obtain ⟨g, hk, rfl⟩ := List.mem_map.mp hm
          exact ⟨hk, Or.inr rfl⟩

/-- Witness for C8 on the three-row Gender/questions table. -/
theorem C8_yes_proportions_witness :
    improvementPrep impTable = some
      ([(Cell.str "F", "Quality of Education Improved", 1),
        (Cell.str "M", "Quality of Education Improved", 0),
        (Cell.str "F", "University Image Improved", qdiv 1 2),
        (Cell.str "M", "University Image Improved", 0)], impTable) ∧
    impTable.getCol? "Gender" = some [Cell.str "F", Cell.str "F", Cell.str "M"] ∧
    ((∀ e ∈ ([(Cell.str "F", "Quality of Education Improved", 1),
        (Cell.str "M", "Quality of Education Improved", 0),
        (Cell.str "F", "University Image Improved", qdiv 1 2),
        (Cell.str "M", "University Image Improved", 0)] :
          List (Cell × String × ℚ)), 0 ≤ e.2.2 ∧ e.2.2 ≤ 1) ∧
     ([(Cell.str "F", "Quality of Education Improved", 1),
       (Cell.str "M", "Quality of Education Improved", 0),
       (Cell.str "F", "University Image Improved", qdiv 1 2),
       (Cell.str "M", "University Image Improved", 0)] :
         List (Cell × String × ℚ)).length =
       2 * (genderKeys [Cell.str "F", Cell.str "F", Cell.str "M"]).length ∧
     (∀ e ∈ ([(Cell.str "F", "Quality of Education Improved", 1),
        (Cell.str "M", "Quality of Education Improved", 0),
        (Cell.str "F", "University Image Improved", qdiv 1 2),
        (Cell.str "M", "University Image Improved", 0)] :
          List (Cell × String × ℚ)),
        e.1 ∈ genderKeys [Cell.str "F", Cell.str "F", Cell.str "M"] ∧
        (e.2.2 = yesFraction impTable (genderGroup impTable e.1) q_edu ∨
         e.2.2 = yesFraction impTable (genderGroup impTable e.1) q_img))) :=
  ⟨by decide, by decide,
   C8_yes_proportions impTable
     [(Cell.str "F", "Quality of Education Improved", 1),
      (Cell.str "M", "Quality of Education Improved", 0),
      (Cell.str "F", "University Image Improved", qdiv 1 2),
      (Cell.str "M", "University Image Improved", 0)]
     impTable [Cell.str "F", Cell.str "F", Cell.str "M"] (by decide) (by decide)⟩

end TutoSV
